import Mathlib

/-!
Verification of the neuron-population dynamics of `sl_stdp` (src/node.py).

The two populations, `QuintanaExcNodes` and `QuintanaSLNodes`, hold batched
per-neuron state tensors of shape `[batch, n]` and mutate them in a single
vectorized `forward` step.  We embed a tensor of shape `[B, N]` as a function
`Fin B → Fin N → ℚ` (all tensor operations in the source are pointwise, except
the batch-dimension sum feeding `theta`, which becomes a `Finset` sum), spike
tensors as `Fin B → Fin N → Bool`, and the per-neuron (unbatched) adaptive
threshold `theta` as `Fin N → ℚ`.  Scalar parameter buffers become fields of a
parameter structure; the derived decay coefficients (`decay`, `theta_decay`,
`I_decay`, `X_decay`, `C`) set by `compute_decays` appear as plain fields,
exactly as `forward` reads them.
-/

/-- Scalar buffers of `QuintanaExcNodes` as read by `forward`
(src/node.py lines 65-112, 114-150): rest/reset/threshold voltages, the
refractory duration, the derived decay coefficients, `theta_plus`, the input
resistance `R`, the kernel-normalization constant `C`, the simulation step
`dt`, the optional voltage lower bound `lbound`, and the `learning` flag of
the host base class. -/
structure ExcParams where
  rest : ℚ
  reset : ℚ
  thresh : ℚ
  refrac : ℚ
  decay : ℚ
  theta_plus : ℚ
  theta_decay : ℚ
  R : ℚ
  I_decay : ℚ
  X_decay : ℚ
  C : ℚ
  dt : ℚ
  lbound : Option ℚ
  learning : Bool

/-- Mutable state buffers of `QuintanaExcNodes`: voltage `v`, synaptic
current `I`, presynaptic trace `X` and refractory counter `refrac_count`
of shape `[B, N]`, spikes `s` of shape `[B, N]`, and the adaptive threshold
`theta` of shape `[N]` only (it is registered unbatched, src/node.py line 88,
and `set_batch_size` never reallocates it). -/
structure ExcState (B N : ℕ) where
  v : Fin B → Fin N → ℚ
  I : Fin B → Fin N → ℚ
  X : Fin B → Fin N → ℚ
  refrac_count : Fin B → Fin N → ℚ
  theta : Fin N → ℚ
  s : Fin B → Fin N → Bool

/-- One step of `QuintanaExcNodes.forward` (src/node.py lines 114-150),
operation by operation in source order:
voltage decay `v += decay*(rest - v + R*I)`; current `I += I_decay*(C*X - I)`;
trace `X -= X_decay*X`; in learning mode `theta -= theta_decay*theta`;
in-place masking of the input at entries with `refrac_count > 0`
(`x.masked_fill_`); decrement `refrac_count -= dt`; accumulate the masked
input `X += x`; spikes `s = v >= thresh + theta` (with `theta` broadcast over
the batch dimension); `refrac_count.masked_fill_(s, refrac)`;
`v.masked_fill_(s, reset)`; in learning mode
`theta += theta_plus * s.float().sum(0)` (the `scaling_factor` in the source
is the literal `1`); finally, if `lbound` is configured,
`v.masked_fill_(v < lbound, lbound)`.  The second component of the result is
the caller's input buffer after the step: `masked_fill_` mutates it in place,
and the base-class `forward` receives this mutated buffer. -/
def excForward {B N : ℕ} (p : ExcParams) (st : ExcState B N)
    (x : Fin B → Fin N → ℚ) : ExcState B N × (Fin B → Fin N → ℚ) :=
  let v1 : Fin B → Fin N → ℚ := fun b i =>
    st.v b i + p.decay * (p.rest - st.v b i + p.R * st.I b i)
  let I1 : Fin B → Fin N → ℚ := fun b i =>
    st.I b i + p.I_decay * (p.C * st.X b i - st.I b i)
  let X1 : Fin B → Fin N → ℚ := fun b i =>
    st.X b i - p.X_decay * st.X b i
  let theta1 : Fin N → ℚ := fun i =>
    if p.learning then st.theta i - p.theta_decay * st.theta i else st.theta i
  let x1 : Fin B → Fin N → ℚ := fun b i =>
    if st.refrac_count b i > 0 then 0 else x b i
  let rc1 : Fin B → Fin N → ℚ := fun b i => st.refrac_count b i - p.dt
  let X2 : Fin B → Fin N → ℚ := fun b i => X1 b i + x1 b i
  let s1 : Fin B → Fin N → Bool := fun b i =>
    decide (v1 b i ≥ p.thresh + theta1 i)
  let rc2 : Fin B → Fin N → ℚ := fun b i =>
    if s1 b i then p.refrac else rc1 b i
  let v2 : Fin B → Fin N → ℚ := fun b i =>
    if s1 b i then p.reset else v1 b i
  let theta2 : Fin N → ℚ := fun i =>
    if p.learning then
      theta1 i + p.theta_plus * (Finset.univ.sum fun b => if s1 b i then (1 : ℚ) else 0)
    else theta1 i
  let v3 : Fin B → Fin N → ℚ := fun b i =>
    match p.lbound with
    | some lb => if v2 b i < lb then lb else v2 b i
    | none => v2 b i
  ({ v := v3, I := I1, X := X2, refrac_count := rc2, theta := theta2, s := s1 }, x1)

/-- `QuintanaExcNodes.reset_state_variables` (src/node.py lines 152-161):
`v.fill_(rest)`, `X.fill_(0)`, `I.fill_(0)`, `refrac_count.zero_()`; the
base-class reset zeroes the spike buffer.  `theta` is not touched. -/
def excResetStateVariables {B N : ℕ} (p : ExcParams) (st : ExcState B N) :
    ExcState B N :=
  { v := fun _ _ => p.rest
    X := fun _ _ => 0
    I := fun _ _ => 0
    refrac_count := fun _ _ => 0
    theta := st.theta
    s := fun _ _ => false }

/-- `QuintanaExcNodes.set_batch_size` (src/node.py lines 175-186): reallocates
`X`, `I` to zeros, `v` to `rest`, `refrac_count` to zeros at the new batch
size (and the base class reallocates the spike buffer); `theta` is not
reallocated and keeps its `[N]` shape. -/
def excSetBatchSize {B N : ℕ} (p : ExcParams) (st : ExcState B N) (B' : ℕ) :
    ExcState B' N :=
  { v := fun _ _ => p.rest
    X := fun _ _ => 0
    I := fun _ _ => 0
    refrac_count := fun _ _ => 0
    theta := st.theta
    s := fun _ _ => false }

/-- Buffers registered by `QuintanaExcNodes.__init__` that the
construction-time claims are about: the raw synaptic time constants
(src/node.py lines 94-99), the adaptive threshold initialized to
`torch.ones(*shape) * 20` (line 88), and the voltage lower bound (line 112). -/
structure ExcInitBuffers (N : ℕ) where
  tau_inc : ℚ
  tau_dec : ℚ
  theta : Fin N → ℚ
  lbound : Option ℚ

/-- `QuintanaExcNodes.__init__` (src/node.py lines 13-112).  The constructor
only registers buffers: it performs no validation of any argument and has no
`raise`, so as a fallible operation it always returns `ok`.  In particular
`tau_inc = tau_dec` is accepted. -/
def excMk (N : ℕ) (tau_inc tau_dec : ℚ) (lbound : Option ℚ) :
    Except String (ExcInitBuffers N) :=
  Except.ok { tau_inc := tau_inc, tau_dec := tau_dec
              theta := fun _ => 20, lbound := lbound }

/-- Denominator of the exponent in the kernel-normalization constant
`C = (tau_dec/tau_inc) ** (tau_inc/(tau_dec - tau_inc))` computed by
`QuintanaExcNodes.compute_decays` (src/node.py line 171).  When it is zero,
the float division `tau_inc / (tau_dec - tau_inc)` is a division by zero. -/
def excKernelExpDenom {N : ℕ} (b : ExcInitBuffers N) : ℚ :=
  b.tau_dec - b.tau_inc

/-- Scalar buffers of `QuintanaSLNodes` as read by its `forward`
(src/node.py lines 239-268, 270-295). -/
structure SLParams where
  rest : ℚ
  reset : ℚ
  thresh : ℚ
  decay : ℚ
  R : ℚ
  I_decay : ℚ
  X_decay : ℚ
  C : ℚ
  learning : Bool

/-- Mutable state buffers of `QuintanaSLNodes`: voltage `v`, synaptic current
`I`, trace `X` of shape `[B, N]`, and spikes `s`. -/
structure SLState (B N : ℕ) where
  v : Fin B → Fin N → ℚ
  I : Fin B → Fin N → ℚ
  X : Fin B → Fin N → ℚ
  s : Fin B → Fin N → Bool

/-- One step of `QuintanaSLNodes.forward` (src/node.py lines 270-295): only
when `not learning`, the voltage/current/trace decay updates run and the
input is integrated into `X`; then unconditionally `s = v >= thresh` and
`v.masked_fill_(s, reset)`. -/
def slForward {B N : ℕ} (p : SLParams) (st : SLState B N)
    (x : Fin B → Fin N → ℚ) : SLState B N :=
  let v1 : Fin B → Fin N → ℚ := fun b i =>
    if p.learning then st.v b i
    else st.v b i + p.decay * (p.rest - st.v b i + p.R * st.I b i)
  let I1 : Fin B → Fin N → ℚ := fun b i =>
    if p.learning then st.I b i
    else st.I b i + p.I_decay * (p.C * st.X b i - st.I b i)
  let X1 : Fin B → Fin N → ℚ := fun b i =>
    if p.learning then st.X b i
    else st.X b i - p.X_decay * st.X b i + x b i
  let s1 : Fin B → Fin N → Bool := fun b i => decide (v1 b i ≥ p.thresh)
  let v2 : Fin B → Fin N → ℚ := fun b i => if s1 b i then p.reset else v1 b i
  { v := v2, I := I1, X := X1, s := s1 }

/-! Concrete instances used by witnesses and counterexamples. -/

/-- Concrete excitatory parameters with a configured lower bound, used by
witnesses: all decays zero, base threshold 0, lower bound −100. -/
def excPW : ExcParams :=
  { rest := 0, reset := -65, thresh := 0, refrac := 2, decay := 0
    theta_plus := 1/20, theta_decay := 1/10, R := 1, I_decay := 0
    X_decay := 0, C := 1, dt := 1, lbound := some (-100), learning := true }

/-- Concrete excitatory state at batch 1, size 1: resting, positive
refractory counter, unit threshold. -/
def excStW : ExcState 1 1 :=
  { v := fun _ _ => 10, I := fun _ _ => 0, X := fun _ _ => 3
    refrac_count := fun _ _ => 1, theta := fun _ => 1, s := fun _ _ => false }

/-- Zero input of shape [1, 1]. -/
def x0 : Fin 1 → Fin 1 → ℚ := fun _ _ => 0

/-- Concrete excitatory parameters like `excPW` but with
`theta_plus = 1`, large enough that the spike increment covers the
threshold decay (`theta_decay * theta = 1/10 <= 1 = theta_plus`). -/
def excPA : ExcParams :=
  { rest := 0, reset := -65, thresh := 0, refrac := 2, decay := 0
    theta_plus := 1, theta_decay := 1/10, R := 1, I_decay := 0
    X_decay := 0, C := 1, dt := 1, lbound := some (-100), learning := true }

/-- Concrete excitatory parameters like `excPW` but with the base threshold
raised to 100, so that the concrete state `excStW` (voltage 10) does not
spike. -/
def excPB : ExcParams :=
  { rest := 0, reset := -65, thresh := 100, refrac := 2, decay := 0
    theta_plus := 1/20, theta_decay := 1/10, R := 1, I_decay := 0
    X_decay := 0, C := 1, dt := 1, lbound := some (-100), learning := true }


/-- Concrete excitatory parameters for the spike-reset counterexample: the
reset voltage −200 lies below the configured lower bound −100, and the
threshold is low enough that the concrete state spikes. -/
def excPC6 : ExcParams :=
  { rest := 0, reset := -200, thresh := 0, refrac := 2, decay := 0
    theta_plus := 0, theta_decay := 0, R := 1, I_decay := 0, X_decay := 0
    C := 1, dt := 1, lbound := some (-100), learning := false }

/-- Concrete excitatory state at batch 1, size 1 with high voltage and zero
threshold elevation, so that the neuron spikes. -/
def excStC6 : ExcState 1 1 :=
  { v := fun _ _ => 10, I := fun _ _ => 0, X := fun _ _ => 0
    refrac_count := fun _ _ => 0, theta := fun _ => 0, s := fun _ _ => false }

/-- Concrete excitatory parameters with `theta_decay = 2 > 1` (a step `dt`
twice the threshold time constant) and a threshold too high to spike. -/
def excPC8 : ExcParams :=
  { rest := 0, reset := 0, thresh := 100, refrac := 2, decay := 0
    theta_plus := 0, theta_decay := 2, R := 1, I_decay := 0, X_decay := 0
    C := 1, dt := 1, lbound := none, learning := true }

/-- Concrete excitatory state at batch 1, size 1 with unit threshold and a
voltage far below the spike threshold. -/
def excStC8 : ExcState 1 1 :=
  { v := fun _ _ => 0, I := fun _ _ => 0, X := fun _ _ => 0
    refrac_count := fun _ _ => 0, theta := fun _ => 1, s := fun _ _ => false }

/-- Concrete SL parameters in learning mode, with the source defaults
rest −60, reset −45, thresh −40. -/
def slPW : SLParams :=
  { rest := -60, reset := -45, thresh := -40, decay := 1, R := 1
    I_decay := 1, X_decay := 1, C := 1, learning := true }

/-- Concrete SL state at batch 1, size 1 with the voltage at threshold. -/
def slStW : SLState 1 1 :=
  { v := fun _ _ => -40, I := fun _ _ => 3, X := fun _ _ => 4
    s := fun _ _ => false }

/-- Equation lemma: the spike decision of a step compares the post-decay
voltage against `thresh` plus the post-decay threshold. -/
theorem excForward_s_eq {B N : ℕ} (p : ExcParams) (st : ExcState B N)
    (x : Fin B → Fin N → ℚ) (b : Fin B) (i : Fin N) :
    ((excForward p st x).1).s b i
      = decide (st.v b i + p.decay * (p.rest - st.v b i + p.R * st.I b i)
          ≥ p.thresh +
            (if p.learning then st.theta i - p.theta_decay * st.theta i
             else st.theta i)) := rfl

/-- Equation lemma: the post-step trace adds the refractory-masked input to
the decayed trace. -/
theorem excForward_X_eq {B N : ℕ} (p : ExcParams) (st : ExcState B N)
    (x : Fin B → Fin N → ℚ) (b : Fin B) (i : Fin N) :
    ((excForward p st x).1).X b i
      = (st.X b i - p.X_decay * st.X b i)
        + (if st.refrac_count b i > 0 then 0 else x b i) := rfl

/-- Equation lemma: the post-step refractory counter is `refrac` at spiking
entries and the decremented previous counter elsewhere. -/
theorem excForward_rc_eq {B N : ℕ} (p : ExcParams) (st : ExcState B N)
    (x : Fin B → Fin N → ℚ) (b : Fin B) (i : Fin N) :
    ((excForward p st x).1).refrac_count b i
      = (if ((excForward p st x).1).s b i then p.refrac
         else st.refrac_count b i - p.dt) := rfl

/-- Equation lemma: in learning mode the post-step threshold is the decayed
threshold plus `theta_plus` times the number of batch elements in which the
neuron spiked; outside learning mode it is unchanged. -/
theorem excForward_theta_eq {B N : ℕ} (p : ExcParams) (st : ExcState B N)
    (x : Fin B → Fin N → ℚ) (i : Fin N) :
    ((excForward p st x).1).theta i
      = (if p.learning then
          (st.theta i - p.theta_decay * st.theta i)
            + p.theta_plus * (Finset.univ.sum fun b =>
                if ((excForward p st x).1).s b i then (1 : ℚ) else 0)
         else st.theta i) := by
  cases hl : p.learning <;> simp [excForward, hl]

/-- Helper: clipping a value from below never lands under the bound. -/
theorem le_clip (lb a : ℚ) : lb ≤ if a < lb then lb else a := by
  split
  · exact le_refl lb
  · exact le_of_not_lt (by assumption)

/-- C1: for the excitatory population with a configured lower bound `lbound`,
after every `forward` call every component of `v` is at least `lbound`,
whatever the input and the prior state: the final
`v.masked_fill_(v < lbound, lbound)` (src/node.py lines 147-148) clips every
entry. -/
theorem exc_forward_v_ge_lbound {B N : ℕ} (p : ExcParams) (st : ExcState B N)
    (x : Fin B → Fin N → ℚ) (lb : ℚ) (h : p.lbound = some lb)
    (b : Fin B) (i : Fin N) :
    lb ≤ ((excForward p st x).1).v b i := by
  simp only [excForward, h]
  exact le_clip lb _

/-- Witness for C1: at the concrete parameters `excPW` (lower bound −100),
state `excStW` and zero input, the post-step voltage of neuron 0 in batch
element 0 is at least −100. -/
theorem exc_forward_v_ge_lbound_w :
    (-100 : ℚ) ≤ ((excForward excPW excStW x0).1).v 0 0 :=
  exc_forward_v_ge_lbound excPW excStW x0 (-100) rfl 0 0

/-- C2: for the excitatory population, after `reset_state_variables` every
component of `v` equals `rest`, every component of `X`, `I` and
`refrac_count` is zero, and `theta` is left exactly unchanged
(src/node.py lines 152-161 never touch `theta`). -/
theorem exc_reset_state_variables_spec {B N : ℕ} (p : ExcParams)
    (st : ExcState B N) (b : Fin B) (i : Fin N) :
    (excResetStateVariables p st).v b i = p.rest ∧
    (excResetStateVariables p st).X b i = 0 ∧
    (excResetStateVariables p st).I b i = 0 ∧
    (excResetStateVariables p st).refrac_count b i = 0 ∧
    (excResetStateVariables p st).theta i = st.theta i :=
  ⟨rfl, rfl, rfl, rfl, rfl⟩

/-- Counterexample for C3: at `excPW` (learning mode, `theta_decay = 1/10 > 0`,
`theta_plus = 1/20`) and state `excStW` (`theta = 1`), neuron 0 spikes in the
step, yet its threshold strictly decreases: the decay removes
`theta_decay * theta = 1/10` while the spike adds only `theta_plus = 1/20`. -/
theorem exc_theta_spiked_decrease_cex :
    excPW.learning = true ∧ (0 : ℚ) < excPW.theta_decay ∧
    ((excForward excPW excStW x0).1).s 0 0 = true ∧
    ((excForward excPW excStW x0).1).theta 0 < excStW.theta 0 := by
  refine ⟨rfl, by norm_num [excPW], ?_, ?_⟩
  · rw [excForward_s_eq]
    norm_num [excPW, excStW]
  · rw [excForward_theta_eq]
    norm_num [excPW, excStW, excForward_s_eq, Fin.sum_univ_one]

/-- C3 (amended): in learning mode with `theta_decay > 0`, across one step in
which a neuron spiked in at least one batch element its `theta` does not
decrease PROVIDED additionally `theta_decay * theta ≤ theta_plus` and
`0 ≤ theta_plus` (the spike increment `theta_plus * count` must cover the
decay `theta_decay * theta`; the unamended claim fails, see the
counterexample); across a step with no spike of that neuron in any batch
element, its `theta` strictly decreases when it was positive. -/
theorem exc_theta_step_amended {B N : ℕ} (p : ExcParams) (st : ExcState B N)
    (x : Fin B → Fin N → ℚ) (i : Fin N)
    (hl : p.learning = true) (hd : 0 < p.theta_decay) :
    ((∃ b, ((excForward p st x).1).s b i = true) →
        p.theta_decay * st.theta i ≤ p.theta_plus → 0 ≤ p.theta_plus →
        st.theta i ≤ ((excForward p st x).1).theta i) ∧
    ((∀ b, ((excForward p st x).1).s b i = false) → 0 < st.theta i →
        ((excForward p st x).1).theta i < st.theta i) := by
  rw [excForward_theta_eq, hl, if_pos rfl]
  constructor
  · rintro ⟨b0, hb0⟩ hcov hp
    have h1 : (1 : ℚ) ≤ Finset.univ.sum fun b =>
        if ((excForward p st x).1).s b i then (1 : ℚ) else 0 := by
      have h2 := Finset.single_le_sum
        (f := fun b => if ((excForward p st x).1).s b i then (1 : ℚ) else 0)
        (fun b _ => by dsimp only; split <;> norm_num) (Finset.mem_univ b0)
      simpa [hb0] using h2
    linarith [mul_le_mul_of_nonneg_left h1 hp]
  · intro hns hpos
    have h0 : (Finset.univ.sum fun b =>
        if ((excForward p st x).1).s b i then (1 : ℚ) else 0) = 0 :=
      Finset.sum_eq_zero fun b _ => by simp [hns b]
    rw [h0]
    nlinarith [mul_pos hd hpos]

/-- Witness for C3 (amended), with both halves exercised non-vacuously: at
`excPA` (learning, `theta_decay = 1/10 > 0`, `theta_plus = 1`) and state
`excStW` the neuron spikes and the coverage proviso
`theta_decay * theta = 1/10 <= 1 = theta_plus` holds, so its threshold does
not decrease across the step; at `excPB` (same decays, base threshold 100)
the same state does not spike and its positive threshold strictly
decreases. -/
theorem exc_theta_step_amended_w :
    excStW.theta 0 ≤ ((excForward excPA excStW x0).1).theta 0 ∧
    ((excForward excPB excStW x0).1).theta 0 < excStW.theta 0 :=
  ⟨(exc_theta_step_amended excPA excStW x0 0 rfl (by norm_num [excPA])).1
      ⟨0, by rw [excForward_s_eq]; norm_num [excPA, excStW]⟩
      (by norm_num [excPA, excStW]) (by norm_num [excPA]),
   (exc_theta_step_amended excPB excStW x0 0 rfl (by norm_num [excPB])).2
      (fun b => by rw [excForward_s_eq]; norm_num [excPB, excStW])
      (by norm_num [excStW])⟩

/-- C4: contrary to the claim, constructing the excitatory population with
equal synaptic rise and decay time constants is NOT rejected: `__init__`
(src/node.py lines 13-112) performs no validation and raises no error, so
construction succeeds with `tau_dec = tau_inc = 5`, and `compute_decays`
(line 171) then divides by `tau_dec - tau_inc = 0` in the exponent of the
kernel-normalization constant instead of failing fast.  The spec
(error-handling design) requires rejection at construction, so this is a
defect of the code, evaluated here at the failing input. -/
theorem exc_mk_equal_tau_not_rejected :
    ∃ b : ExcInitBuffers 1, excMk 1 5 5 (some (-100)) = Except.ok b ∧
      excKernelExpDenom b = 0 :=
  ⟨_, rfl, by norm_num [excKernelExpDenom]⟩

/-- Counterexample for C5: in learning mode the SL `forward` does NOT leave
the voltage exactly unchanged for every input: the spike check and
`v.masked_fill_(s, reset)` (src/node.py lines 290-293) run outside the
`not learning` guard, so at `slStW` (voltage −40 equal to the threshold) the
step overwrites the voltage with the reset value −45. -/
theorem sl_learning_frozen_cex :
    slPW.learning = true ∧
    (slForward slPW slStW x0).v 0 0 ≠ slStW.v 0 0 := by
  refine ⟨rfl, ?_⟩
  norm_num [slForward, slPW, slStW]

/-- C5 (amended): in learning mode the SL `forward` leaves `I` and `X`
exactly unchanged, and leaves `v` unchanged at every component where
`v < thresh`; at components with `v >= thresh` the voltage is overwritten
with the reset value (the spike/reset lines run in every mode — the
unamended claim that `v` is always unchanged fails, see the
counterexample). -/
theorem sl_learning_frozen_amended {B N : ℕ} (p : SLParams)
    (st : SLState B N) (x : Fin B → Fin N → ℚ) (hl : p.learning = true)
    (b : Fin B) (i : Fin N) :
    (slForward p st x).I b i = st.I b i ∧
    (slForward p st x).X b i = st.X b i ∧
    (slForward p st x).v b i
      = (if st.v b i ≥ p.thresh then p.reset else st.v b i) := by
  refine ⟨?_, ?_, ?_⟩ <;> simp [slForward, hl]

/-- Witness for C5 (amended): instantiated at `slPW` (learning mode), state
`slStW` and zero input, batch element 0, neuron 0. -/
theorem sl_learning_frozen_amended_w :
    (slForward slPW slStW x0).I 0 0 = slStW.I 0 0 ∧
    (slForward slPW slStW x0).X 0 0 = slStW.X 0 0 ∧
    (slForward slPW slStW x0).v 0 0
      = (if slStW.v 0 0 ≥ slPW.thresh then slPW.reset else slStW.v 0 0) :=
  sl_learning_frozen_amended slPW slStW x0 rfl 0 0

/-- Equation lemma: the post-step voltage is the spike-reset voltage clipped
from below by the configured lower bound, when one is configured. -/
theorem excForward_v_eq {B N : ℕ} (p : ExcParams) (st : ExcState B N)
    (x : Fin B → Fin N → ℚ) (b : Fin B) (i : Fin N) :
    ((excForward p st x).1).v b i
      = (match p.lbound with
         | some lb =>
             if (if ((excForward p st x).1).s b i then p.reset
                 else st.v b i + p.decay * (p.rest - st.v b i + p.R * st.I b i))
                 < lb
             then lb
             else (if ((excForward p st x).1).s b i then p.reset
                   else st.v b i
                     + p.decay * (p.rest - st.v b i + p.R * st.I b i))
         | none =>
             if ((excForward p st x).1).s b i then p.reset
             else st.v b i + p.decay * (p.rest - st.v b i + p.R * st.I b i)) :=
  rfl

/-- Counterexample for C6: at `excPC6` the reset voltage −200 lies below the
configured lower bound −100; the neuron spikes in the step, yet its post-step
voltage is the clip value −100, not the reset voltage: the final
`v.masked_fill_(v < lbound, lbound)` overwrites the just-reset voltage. -/
theorem exc_spike_reset_cex :
    ((excForward excPC6 excStC6 x0).1).s 0 0 = true ∧
    ((excForward excPC6 excStC6 x0).1).v 0 0 ≠ excPC6.reset := by
  constructor
  · rw [excForward_s_eq]
    norm_num [excPC6, excStC6]
  · norm_num [excForward, excPC6, excStC6]

/-- C6 (amended): in every step the spike indicator equals
`v >= thresh + theta` evaluated on the post-decay voltage and post-decay
threshold, and every spiking neuron ends the step with its refractory
counter equal to `refrac` and its voltage equal to the reset voltage
PROVIDED the configured lower bound (when present) does not exceed the reset
voltage — otherwise the final clip overwrites the reset value, see the
counterexample. -/
theorem exc_spike_step_amended {B N : ℕ} (p : ExcParams) (st : ExcState B N)
    (x : Fin B → Fin N → ℚ) (b : Fin B) (i : Fin N)
    (hlb : ∀ lb, p.lbound = some lb → lb ≤ p.reset) :
    (((excForward p st x).1).s b i
      = decide (st.v b i + p.decay * (p.rest - st.v b i + p.R * st.I b i)
          ≥ p.thresh +
            (if p.learning then st.theta i - p.theta_decay * st.theta i
             else st.theta i))) ∧
    (((excForward p st x).1).s b i = true →
      ((excForward p st x).1).refrac_count b i = p.refrac ∧
      ((excForward p st x).1).v b i = p.reset) := by
  refine ⟨excForward_s_eq p st x b i, fun hs => ⟨?_, ?_⟩⟩
  · rw [excForward_rc_eq]
    simp [hs]
  · rw [excForward_v_eq]
    cases hop : p.lbound with
    | none => simp [hs]
    | some lb =>
      have h := hlb lb hop
      simp [hs, not_lt.mpr h]

/-- Witness for C6 (amended): instantiated at `excPW` (lower bound −100 below
the reset voltage −65), state `excStW` and zero input; the neuron spikes
there. -/
theorem exc_spike_step_amended_w :
    (((excForward excPW excStW x0).1).s 0 0
      = decide (excStW.v 0 0
          + excPW.decay * (excPW.rest - excStW.v 0 0 + excPW.R * excStW.I 0 0)
          ≥ excPW.thresh +
            (if excPW.learning then
              excStW.theta 0 - excPW.theta_decay * excStW.theta 0
             else excStW.theta 0))) ∧
    (((excForward excPW excStW x0).1).s 0 0 = true →
      ((excForward excPW excStW x0).1).refrac_count 0 0 = excPW.refrac ∧
      ((excForward excPW excStW x0).1).v 0 0 = excPW.reset) :=
  exc_spike_step_amended excPW excStW x0 0 0 (fun lb h => by
    have h2 : some (-100 : ℚ) = some lb := h
    rw [← Option.some.inj h2]
    norm_num [excPW])

/-- C7: in every step, the input entry of any neuron/batch element whose
refractory counter is strictly positive at the start of the step is masked
to zero before accumulation (`x.masked_fill_(refrac_count > 0, 0)` runs
before `X += x`), so a refractory entry's trace only decays; the counter is
then decremented by `dt` (and may go negative), the decremented value being
the post-step counter whenever the entry does not spike (a spike overwrites
it with `refrac`). -/
theorem exc_refractory_gating {B N : ℕ} (p : ExcParams) (st : ExcState B N)
    (x : Fin B → Fin N → ℚ) (b : Fin B) (i : Fin N)
    (h : 0 < st.refrac_count b i) :
    (excForward p st x).2 b i = 0 ∧
    ((excForward p st x).1).X b i = st.X b i - p.X_decay * st.X b i ∧
    ((excForward p st x).1).refrac_count b i
      = (if ((excForward p st x).1).s b i then p.refrac
         else st.refrac_count b i - p.dt) := by
  refine ⟨?_, ?_, excForward_rc_eq p st x b i⟩
  · show (if st.refrac_count b i > 0 then 0 else x b i) = 0
    rw [if_pos h]
  · rw [excForward_X_eq, if_pos h, add_zero]

/-- Witness for C7: at the state `excStW`, whose refractory counter is 1 > 0,
with parameters `excPW` and zero input. -/
theorem exc_refractory_gating_w :
    (excForward excPW excStW x0).2 0 0 = 0 ∧
    ((excForward excPW excStW x0).1).X 0 0
      = excStW.X 0 0 - excPW.X_decay * excStW.X 0 0 ∧
    ((excForward excPW excStW x0).1).refrac_count 0 0
      = (if ((excForward excPW excStW x0).1).s 0 0 then excPW.refrac
         else excStW.refrac_count 0 0 - excPW.dt) :=
  exc_refractory_gating excPW excStW x0 0 0 (by norm_num [excStW])

/-- Counterexample for C8: with `theta_plus = 0 >= 0` and a non-negative
threshold `theta = 1`, a learning-mode step at `excPC8`
(`theta_decay = 2`, no spike) drives `theta` to `1 - 2*1 = -1 < 0`: the
claim's invariant fails when `theta_decay` exceeds 1. -/
theorem exc_theta_nonneg_cex :
    (0 : ℚ) ≤ excPC8.theta_plus ∧ (0 : ℚ) ≤ excStC8.theta 0 ∧
    ((excForward excPC8 excStC8 x0).1).theta 0 < 0 := by
  refine ⟨by norm_num [excPC8], by norm_num [excStC8], ?_⟩
  rw [excForward_theta_eq]
  norm_num [excPC8, excStC8, excForward_s_eq, Fin.sum_univ_one]

/-- C8 (amended): with `theta_plus >= 0` AND `theta_decay <= 1` (the decay
removes at most the current value per step; the unamended claim fails for
`theta_decay > 1`, see the counterexample), every component of `theta` that
is non-negative before a step is non-negative after it. -/
theorem exc_theta_nonneg_amended {B N : ℕ} (p : ExcParams) (st : ExcState B N)
    (x : Fin B → Fin N → ℚ) (i : Fin N)
    (hp : 0 ≤ p.theta_plus) (hd : p.theta_decay ≤ 1) (h0 : 0 ≤ st.theta i) :
    0 ≤ ((excForward p st x).1).theta i := by
  rw [excForward_theta_eq]
  cases hl : p.learning with
  | false => simpa using h0
  | true =>
    rw [if_pos rfl]
    have hcnt : 0 ≤ Finset.univ.sum fun b =>
        if ((excForward p st x).1).s b i then (1 : ℚ) else 0 :=
      Finset.sum_nonneg fun b _ => by split <;> norm_num
    nlinarith [mul_nonneg hp hcnt, mul_nonneg (sub_nonneg.mpr hd) h0]

/-- Witness for C8 (amended): instantiated at `excPW`
(`theta_plus = 1/20 >= 0`, `theta_decay = 1/10 <= 1`), the state `excStW`
(`theta = 1 >= 0`) and zero input. -/
theorem exc_theta_nonneg_amended_w :
    0 ≤ ((excForward excPW excStW x0).1).theta 0 :=
  exc_theta_nonneg_amended excPW excStW x0 0 (by norm_num [excPW])
    (by norm_num [excPW]) (by norm_num [excStW])

/-- C9: `forward` mutates its input argument in place:
`x.masked_fill_(refrac_count > 0, 0)` overwrites the caller's buffer, so
after the step the buffer holds zero at every entry that was refractory at
the start of the step and its original value elsewhere — the tensor the
caller passed is not the same after the step returns (the embedding returns
the mutated buffer as the second component). -/
theorem exc_forward_mutates_input {B N : ℕ} (p : ExcParams)
    (st : ExcState B N) (x : Fin B → Fin N → ℚ) (b : Fin B) (i : Fin N) :
    (excForward p st x).2 b i
      = (if st.refrac_count b i > 0 then 0 else x b i) := rfl

/-- C10: at construction the adaptive threshold is `20` for every neuron
(`torch.ones(*shape) * 20`, src/node.py line 88), so the effective initial
spike threshold is `thresh + 20`; `reset_state_variables` and
`set_batch_size` both leave `theta` untouched (it is never reallocated, and
its type in the embedding stays `Fin N → ℚ` — shape `[n]`, unbatched — even
when the batch size changes). -/
theorem exc_theta_init_and_persistence {B N B' : ℕ} (p : ExcParams)
    (st : ExcState B N) (t1 t2 : ℚ) (lb : Option ℚ) (i : Fin N)
    (b : ExcInitBuffers N) (h : excMk N t1 t2 lb = Except.ok b) :
    b.theta i = 20 ∧
    (excResetStateVariables p st).theta = st.theta ∧
    (excSetBatchSize p st B').theta = st.theta := by
  refine ⟨?_, rfl, rfl⟩
  have h2 : Except.ok (ε := String)
      ({ tau_inc := t1, tau_dec := t2, theta := fun _ => 20, lbound := lb } :
        ExcInitBuffers N) = Except.ok b := h
  rw [← Except.ok.inj h2]

/-- Witness for C10: construction at `n = 1` with the default time constants
`tau_inc = 10`, `tau_dec = 5` and lower bound −100, and persistence of
`theta` across a reset and a batch-size change at the concrete state
`excStW`. -/
theorem exc_theta_init_and_persistence_w :
    ({ tau_inc := 10, tau_dec := 5, theta := fun _ => 20
       lbound := some (-100) } : ExcInitBuffers 1).theta 0 = 20 ∧
    (excResetStateVariables excPW excStW).theta = excStW.theta ∧
    (excSetBatchSize excPW excStW 2).theta = excStW.theta :=
  exc_theta_init_and_persistence excPW excStW 10 5 (some (-100)) 0 _ rfl
